import Mathlib

/-!
Verification of the shipment-tracking reconciliation and polling subsystem of the
Immpression backend (order routes, src/unnamed/part_004, data model in
src/models/orders.js). Route handlers are embedded as pure functions of the
request data, the fetched carrier payload and the current time; the persisted
shipping sub-document is an explicit record threaded through each operation.
Times are modelled as natural numbers of milliseconds since the epoch.
-/

set_option autoImplicit false

namespace Shipment

/-- Shared internal status vocabulary SHIPMENT_STATUS (src/models/orders.js:82). -/
inductive ShipmentStatus where
  | pending
  | processing
  | shipped
  | in_transit
  | out_for_delivery
  | delivered
  | exception
  | returned
deriving DecidableEq, Repr

/-- All eight values of the status enumeration, in schema order. -/
def allStatuses : List ShipmentStatus :=
  [.pending, .processing, .shipped, .in_transit, .out_for_delivery,
   .delivered, .exception, .returned]

/-- JavaScript string coalescing a || b, with a missing field modelled as the
empty string (the only falsy string). -/
def jsOr (a b : String) : String := if a = "" then b else a

/-- ASCII lowercasing, the behaviour of JavaScript toLowerCase on the ASCII
carrier vocabulary this code handles. -/
def lowerStr (s : String) : String := String.mk (s.toList.map Char.toLower)

/-- ASCII uppercasing, the behaviour of JavaScript toUpperCase on ASCII input. -/
def upperStr (s : String) : String := String.mk (s.toList.map Char.toUpper)

/-- Decides whether pat is an initial segment of s. -/
def charsLead (pat s : List Char) : Bool :=
  match pat, s with
  | [], _ => true
  | _ :: _, [] => false
  | a :: as, b :: bs => a == b && charsLead as bs

/-- Decides whether pat occurs contiguously inside s. -/
def charsHasSub (pat : List Char) : List Char → Bool
  | [] => charsLead pat []
  | c :: rest => charsLead pat (c :: rest) || charsHasSub pat rest

/-- Substring test: the semantics of a single-literal regex test such as
/delivered/.test(s). An alternation regex is modelled as a disjunction of
these tests, one per literal. -/
def strContains (s pat : String) : Bool := charsHasSub pat.toList s.toList

/-- AfterShip tag normalizer mapStatus (src/unnamed/part_004:17-32). The input
is the raw tag, undefined modelled as none; the switch scrutinee is
(s || "").toLowerCase(). -/
def mapStatus (s : Option String) : ShipmentStatus :=
  if lowerStr (s.getD "") = "pending" ∨ lowerStr (s.getD "") = "info_received" ∨
      lowerStr (s.getD "") = "inforeceived" ∨ lowerStr (s.getD "") = "pre_transit" then .shipped
  else if lowerStr (s.getD "") = "in_transit" then .in_transit
  else if lowerStr (s.getD "") = "out_for_delivery" then .out_for_delivery
  else if lowerStr (s.getD "") = "delivered" then .delivered
  else if lowerStr (s.getD "") = "available_for_pickup" ∨ lowerStr (s.getD "") = "exception" ∨
      lowerStr (s.getD "") = "failed_attempt" ∨ lowerStr (s.getD "") = "return_to_sender" then .exception
  else .shipped

/-- Recognition domain of mapStatus: the switch cases that are not the default,
grouped exactly as in the source. -/
def aftershipRecognized (s : Option String) : Prop :=
  (lowerStr (s.getD "") = "pending" ∨ lowerStr (s.getD "") = "info_received" ∨
      lowerStr (s.getD "") = "inforeceived" ∨ lowerStr (s.getD "") = "pre_transit")
  ∨ lowerStr (s.getD "") = "in_transit"
  ∨ lowerStr (s.getD "") = "out_for_delivery"
  ∨ lowerStr (s.getD "") = "delivered"
  ∨ (lowerStr (s.getD "") = "available_for_pickup" ∨ lowerStr (s.getD "") = "exception" ∨
      lowerStr (s.getD "") = "failed_attempt" ∨ lowerStr (s.getD "") = "return_to_sender")

/-- UPS status normalizer mapUpsStatus (src/unnamed/part_004:192-210). Inputs
are the raw code and description fields of currentStatus, a missing field
modelled as the empty string; the source uppercases the code and lowercases the
description before matching. -/
def mapUpsStatus (code desc : String) : ShipmentStatus :=
  if upperStr code = "D" ∨ strContains (lowerStr desc) "delivered" = true then .delivered
  else if upperStr code = "O" ∨ strContains (lowerStr desc) "out for delivery" = true then .out_for_delivery
  else if upperStr code = "I" ∨ strContains (lowerStr desc) "in transit" = true ∨
      strContains (lowerStr desc) "arrived" = true ∨ strContains (lowerStr desc) "departed" = true ∨
      strContains (lowerStr desc) "origin scan" = true ∨
      strContains (lowerStr desc) "destination scan" = true then .in_transit
  else if strContains (lowerStr desc) "exception" = true ∨
      strContains (lowerStr desc) "failed attempt" = true ∨
      strContains (lowerStr desc) "return to sender" = true ∨
      strContains (lowerStr desc) "hold" = true then .exception
  else if strContains (lowerStr desc) "label created" = true ∨
      strContains (lowerStr desc) "information received" = true ∨
      strContains (lowerStr desc) "pretransit" = true ∨
      strContains (lowerStr desc) "pre-transit" = true ∨
      strContains (lowerStr desc) "pre transit" = true ∨
      strContains (lowerStr desc) "order processed" = true then .shipped
  else .shipped

/-- Recognition domain of mapUpsStatus: the disjunction of every tested
condition, grouped exactly as the if chain in the source. -/
def upsRecognized (code desc : String) : Prop :=
  (upperStr code = "D" ∨ strContains (lowerStr desc) "delivered" = true)
  ∨ (upperStr code = "O" ∨ strContains (lowerStr desc) "out for delivery" = true)
  ∨ (upperStr code = "I" ∨ strContains (lowerStr desc) "in transit" = true ∨
      strContains (lowerStr desc) "arrived" = true ∨ strContains (lowerStr desc) "departed" = true ∨
      strContains (lowerStr desc) "origin scan" = true ∨
      strContains (lowerStr desc) "destination scan" = true)
  ∨ (strContains (lowerStr desc) "exception" = true ∨
      strContains (lowerStr desc) "failed attempt" = true ∨
      strContains (lowerStr desc) "return to sender" = true ∨
      strContains (lowerStr desc) "hold" = true)
  ∨ (strContains (lowerStr desc) "label created" = true ∨
      strContains (lowerStr desc) "information received" = true ∨
      strContains (lowerStr desc) "pretransit" = true ∨
      strContains (lowerStr desc) "pre-transit" = true ∨
      strContains (lowerStr desc) "pre transit" = true ∨
      strContains (lowerStr desc) "order processed" = true)

/-- FedEx status normalizer mapFedexStatus (src/unnamed/part_004:363-382). The
input is the raw string obtained from description || statusByLocale || code ||
the object itself; the source lowercases it before matching. -/
def mapFedexStatus (raw : String) : ShipmentStatus :=
  if strContains (lowerStr raw) "delivered" = true then .delivered
  else if strContains (lowerStr raw) "out for delivery" = true then .out_for_delivery
  else if strContains (lowerStr raw) "in transit" = true ∨ strContains (lowerStr raw) "on its way" = true ∨
      strContains (lowerStr raw) "departed" = true ∨ strContains (lowerStr raw) "arrived" = true ∨
      strContains (lowerStr raw) "at fedex location" = true ∨
      strContains (lowerStr raw) "at local facility" = true then .in_transit
  else if strContains (lowerStr raw) "exception" = true ∨ strContains (lowerStr raw) "failed" = true ∨
      strContains (lowerStr raw) "delivery exception" = true ∨
      strContains (lowerStr raw) "hold" = true ∨ strContains (lowerStr raw) "return" = true then .exception
  else if strContains (lowerStr raw) "label created" = true ∨
      strContains (lowerStr raw) "shipment information sent" = true ∨
      strContains (lowerStr raw) "picked up" = true ∨
      strContains (lowerStr raw) "pretransit" = true ∨
      strContains (lowerStr raw) "pre-transit" = true ∨
      strContains (lowerStr raw) "pre transit" = true ∨
      strContains (lowerStr raw) "order processed" = true then .shipped
  else .shipped

/-- Recognition domain of mapFedexStatus: the disjunction of every tested
condition, grouped exactly as the if chain in the source. -/
def fedexRecognized (raw : String) : Prop :=
  strContains (lowerStr raw) "delivered" = true
  ∨ strContains (lowerStr raw) "out for delivery" = true
  ∨ (strContains (lowerStr raw) "in transit" = true ∨ strContains (lowerStr raw) "on its way" = true ∨
      strContains (lowerStr raw) "departed" = true ∨ strContains (lowerStr raw) "arrived" = true ∨
      strContains (lowerStr raw) "at fedex location" = true ∨
      strContains (lowerStr raw) "at local facility" = true)
  ∨ (strContains (lowerStr raw) "exception" = true ∨ strContains (lowerStr raw) "failed" = true ∨
      strContains (lowerStr raw) "delivery exception" = true ∨
      strContains (lowerStr raw) "hold" = true ∨ strContains (lowerStr raw) "return" = true)
  ∨ (strContains (lowerStr raw) "label created" = true ∨
      strContains (lowerStr raw) "shipment information sent" = true ∨
      strContains (lowerStr raw) "picked up" = true ∨
      strContains (lowerStr raw) "pretransit" = true ∨
      strContains (lowerStr raw) "pre-transit" = true ∨
      strContains (lowerStr raw) "pre transit" = true ∨
      strContains (lowerStr raw) "order processed" = true)

instance (s : Option String) : Decidable (aftershipRecognized s) := by
  unfold aftershipRecognized
  infer_instance

instance (code desc : String) : Decidable (upsRecognized code desc) := by
  unfold upsRecognized
  infer_instance

instance (raw : String) : Decidable (fedexRecognized raw) := by
  unfold fedexRecognized
  infer_instance

/-- Milliseconds per hour; setUTCHours(getUTCHours() + h) on a JS Date advances
the time value by exactly h of these. -/
def msPerHour : Nat := 3600000

/-- Base polling cadence in hours by status, the first conditional chain of
computeNextPollAt (src/unnamed/part_004:491-495). -/
def pollBaseHours (status : ShipmentStatus) : Nat :=
  if status = .out_for_delivery then 2
  else if status = .in_transit then 6
  else if status = .shipped then 12
  else if status = .exception then 12
  else 12

/-- Next poll time computeNextPollAt (src/unnamed/part_004:489-504): the current
time plus the base cadence plus one hour per three attempts, capped at 24 hours. -/
def computeNextPollAt (status : ShipmentStatus) (attempts : Nat) (now : Nat) : Nat :=
  now + min (pollBaseHours status + min (24 - pollBaseHours status) (attempts / 3)) 24 * msPerHour

/-- Digit filtering: the replace(/\D/g, "") step of parseUpsDate. -/
def digitsOf (s : String) : String := String.mk (s.toList.filter Char.isDigit)

/-- Slice of a string by character positions, as the slice calls of parseUpsDate
use it on an all-digit string. -/
def strSlice (s : String) (a b : Nat) : String := String.mk ((s.toList.drop a).take (b - a))

/-- Numeric value of an all-digit string, the behaviour of JS Number there;
Number of the empty string is 0. -/
def natOf (s : String) : Nat := s.toList.foldl (fun n c => n * 10 + (c.toNat - 48)) 0

/-- Components handed to Date.UTC by parseUpsDate. Two dates built from
different component tuples may denote one instant (out-of-range components roll
over); no claim compares dates across different raw spellings, so component
equality is the right notion here. -/
structure UpsDate where
  year : Nat
  month : Nat
  day : Nat
  hour : Nat
  minute : Nat
  second : Nat
deriving DecidableEq, Repr

/-- UPS date parser parseUpsDate (src/unnamed/part_004:173-189): strips
non-digits, requires exactly 8 date digits, reads optional hh mm ss pairs. The
final isNaN guard is unreachable because a JS Date built from components bounded
by 9999-99-99 99:99:99 is always finite, so the result is some exactly when the
stripped date string has 8 digits. -/
def parseUpsDate (ymd hms : String) : Option UpsDate :=
  if (digitsOf ymd).length = 8 then
    some {
      year := natOf (strSlice (digitsOf ymd) 0 4)
      month := natOf (strSlice (digitsOf ymd) 4 6)
      day := natOf (strSlice (digitsOf ymd) 6 8)
      hour := if (digitsOf hms).length ≥ 2 then natOf (strSlice (digitsOf hms) 0 2) else 0
      minute := if (digitsOf hms).length ≥ 4 then natOf (strSlice (digitsOf hms) 2 4) else 0
      second := if (digitsOf hms).length ≥ 6 then natOf (strSlice (digitsOf hms) 4 6) else 0 }
  else none

/-- Stored tracking event (TrackingEventSchema, src/models/orders.js:109-117).
The datetime field is absent (none) when the raw date was unparsable; D is the
carrier-specific parsed-date type. -/
structure TrackingEvent (D : Type) where
  status : String
  message : String
  datetime : Option D
  location : String
deriving DecidableEq, Repr

/-- Validity filter applied to mapped events before storing them
(src/unnamed/part_004:1221-1223): keep an event when it has no datetime field or
its datetime is a valid Date. A present datetime always came from a parser that
returns undefined on invalid dates, which Option some encodes, so the second
disjunct is simply isSome here. -/
def keepEvent {D : Type} (e : TrackingEvent D) : Bool :=
  !e.datetime.isSome || e.datetime.isSome

/-- Comma joining of the location parts surviving filter(Boolean): the join of
the nonempty parts with a comma and space. -/
def joinParts : List String → String
  | [] => ""
  | [p] => p
  | p :: rest => p ++ ", " ++ joinParts rest

/-- Location string of an event: nonempty parts joined. -/
def joinLoc (parts : List String) : String := joinParts (parts.filter (fun p => p != ""))

/-- Raw UPS activity entry as read by the handler, each accessed field a string
and a missing field the empty string. -/
structure UpsActivity where
  date : String
  time : String
  statusDescription : String
  activityScan : String
  city : String
  stateProvince : String
  country : String
deriving DecidableEq, Repr

/-- Attachment-path UPS event mapping (src/unnamed/part_004:1198-1212): status
is the lowercased description (falling back to the city), message the
description falling back to activityScan, datetime the parsed date when it
parses. -/
def upsEventOf (a : UpsActivity) : TrackingEvent UpsDate :=
  { status := lowerStr (jsOr a.statusDescription a.city)
    message := jsOr a.statusDescription a.activityScan
    datetime := parseUpsDate a.date a.time
    location := joinLoc [a.city, a.stateProvince, a.country] }

/-- Stored UPS tracking events: the mapped list run through the validity filter
(src/unnamed/part_004:1221-1223). -/
def upsStoredEvents (acts : List UpsActivity) : List (TrackingEvent UpsDate) :=
  (acts.map upsEventOf).filter keepEvent

/-- Raw FedEx scan event as read by the handler; a missing string field is the
empty string. -/
structure FedexScan where
  eventDescription : String
  derivedStatus : String
  date : String
  dateTime : String
  eventDateTime : String
  city : String
  stateOrProvinceCode : String
  countryCode : String
  countryName : String
deriving DecidableEq, Repr

/-- FedEx date parser parseFedexDate (src/unnamed/part_004:385-389): an empty
(missing) input yields undefined; otherwise the host ISO-8601 Date parser runs,
modelled by the parameter parse, which returns none exactly when the host
parser yields an invalid Date. -/
def parseFedexDate {D : Type} (parse : String → Option D) (iso : String) : Option D :=
  if iso = "" then none else parse iso

/-- Attachment-path FedEx event mapping (src/unnamed/part_004:1287-1302);
latestDesc is latestStatusDetail.description, the last message fallback. -/
def fedexEventOf {D : Type} (parse : String → Option D) (latestDesc : String)
    (ev : FedexScan) : TrackingEvent D :=
  { status := lowerStr (jsOr ev.eventDescription ev.derivedStatus)
    message := jsOr ev.eventDescription (jsOr ev.derivedStatus latestDesc)
    datetime := parseFedexDate parse (jsOr ev.date (jsOr ev.dateTime ev.eventDateTime))
    location := joinLoc [ev.city, ev.stateOrProvinceCode, jsOr ev.countryCode ev.countryName] }

/-- Stored FedEx tracking events: the mapped list run through the validity
filter (src/unnamed/part_004:1310-1312). -/
def fedexStoredEvents {D : Type} (parse : String → Option D) (latestDesc : String)
    (scans : List FedexScan) : List (TrackingEvent D) :=
  (scans.map (fedexEventOf parse latestDesc)).filter keepEvent

/-- Raw AfterShip checkpoint as read by the handler; a missing string field is
the empty string. -/
structure Checkpoint where
  tag : String
  subtag : String
  status : String
  message : String
  checkpointMessage : String
  checkpointTime : String
  city : String
  state : String
  countryName : String
deriving DecidableEq, Repr

/-- AfterShip checkpoint event mapping (src/unnamed/part_004:1418-1427): the
datetime is set only when checkpoint_time is present and the host Date parser
(parameter parse) accepts it. -/
def aftershipEventOf {D : Type} (parse : String → Option D) (c : Checkpoint) :
    TrackingEvent D :=
  { status := lowerStr (jsOr c.tag (jsOr c.subtag c.status))
    message := jsOr c.message c.checkpointMessage
    datetime := if c.checkpointTime = "" then none else parse c.checkpointTime
    location := joinLoc [c.city, c.state, c.countryName] }

/-- Stored AfterShip tracking events: the mapped checkpoints, stored without a
filter (src/unnamed/part_004:1429). -/
def aftershipStoredEvents {D : Type} (parse : String → Option D)
    (cps : List Checkpoint) : List (TrackingEvent D) :=
  cps.map (aftershipEventOf parse)

/-- Persisted shipping sub-document (ShippingSchema, src/models/orders.js:119),
restricted to the fields the tracking operations read or write. -/
structure Shipping (D : Type) where
  trackingNumber : Option String
  carrier : Option String
  shipmentStatus : ShipmentStatus
  shippedAt : Option Nat
  deliveredAt : Option Nat
  aftershipTrackingId : Option String
  trackingEvents : List (TrackingEvent D)
  verified : Bool
  pollAttempts : Nat
  lastPolledAt : Option Nat
  nextPollAt : Option Nat
deriving DecidableEq, Repr

/-- Carrier slug normalizer toTitleCaseCarrier (src/unnamed/part_004:40-47),
applied to t.slug || carrier in the AfterShip branch; a missing argument is
none. -/
def toTitleCaseCarrier (x : Option String) : String :=
  if strContains (lowerStr (x.getD "")) "usps" = true then "USPS"
  else if strContains (lowerStr (x.getD "")) "ups" = true then "UPS"
  else if strContains (lowerStr (x.getD "")) "fedex" = true then "FedEx"
  else if strContains (lowerStr (x.getD "")) "dhl" = true then "DHL"
  else match x with
    | some v => if v = "" then "USPS" else v
    | none => "USPS"

/-- JavaScript coalescing a || b where a is a string field and b an optional
value: an empty a falls through to b. -/
def jsCoalesce (a : String) (b : Option String) : Option String :=
  if a = "" then b else some a

/-- UPS-branch shipping write of PATCH /order/:id/tracking
(src/unnamed/part_004:1216-1233), applied after a successful fetch that
normalized to status and mapped events; now is the request time and tn the
trimmed uppercased tracking number. Field semantics follow the source order:
events pass the validity filter before storage, verified is sticky, shippedAt
and deliveredAt are set only when previously unset, and polling state is
reseeded with zero attempts. -/
def upsAttachWrite {D : Type} (sh : Shipping D) (now : Nat) (tn : String)
    (status : ShipmentStatus) (events : List (TrackingEvent D)) : Shipping D :=
  { sh with
    trackingNumber := some tn
    carrier := some "UPS"
    shipmentStatus := status
    shippedAt := some (sh.shippedAt.getD now)
    trackingEvents := events.filter keepEvent
    verified := sh.verified || !(events.filter keepEvent).isEmpty
    deliveredAt := if status = .delivered ∧ sh.deliveredAt = none then some now else sh.deliveredAt
    pollAttempts := 0
    lastPolledAt := none
    nextPollAt := if status = .delivered then none else some (computeNextPollAt status 0 now) }

/-- AfterShip-branch shipping write of PATCH /order/:id/tracking
(src/unnamed/part_004:1410-1439): like the UPS write but the carrier comes from
the normalized slug, the AfterShip tracking id is stored, and events are stored
without the validity filter. -/
def aftershipAttachWrite {D : Type} (sh : Shipping D) (now : Nat) (tn : String)
    (slug : String) (carrierReq : Option String) (trackId : String)
    (status : ShipmentStatus) (events : List (TrackingEvent D)) : Shipping D :=
  { sh with
    trackingNumber := some tn
    carrier := some (toTitleCaseCarrier (jsCoalesce slug carrierReq))
    shipmentStatus := status
    shippedAt := some (sh.shippedAt.getD now)
    aftershipTrackingId := some trackId
    trackingEvents := events
    verified := sh.verified || !events.isEmpty
    deliveredAt := if status = .delivered ∧ sh.deliveredAt = none then some now else sh.deliveredAt
    pollAttempts := 0
    lastPolledAt := none
    nextPollAt := if status = .delivered then none else some (computeNextPollAt status 0 now) }

/-- Successful per-record write of pollDueHandler
(src/unnamed/part_004:2205-2216) after the carrier fetch normalized to
newStatus and newEvents: events are replaced, the attempt counter advances,
and polling stops (nextPollAt null) on delivery or at the 120-attempt ceiling.
The deliveredAt update is the one performed inside the carrier branches
(2151-2153, 2200-2202); the FedEx branch may instead use a delivered scan
timestamp (2174-2179), which no claim inspects. -/
def pollRecordWrite {D : Type} (sh : Shipping D) (now : Nat)
    (newStatus : ShipmentStatus) (newEvents : List (TrackingEvent D)) : Shipping D :=
  { sh with
    deliveredAt := if newStatus = .delivered ∧ sh.deliveredAt = none then some now else sh.deliveredAt
    trackingEvents := newEvents
    shipmentStatus := newStatus
    lastPolledAt := some now
    pollAttempts := sh.pollAttempts + 1
    nextPollAt :=
      if newStatus = .delivered ∨ sh.pollAttempts + 1 ≥ 120 then none
      else some (computeNextPollAt newStatus (sh.pollAttempts + 1) now) }

/-- Per-order outcome entry pushed into the poll-due results array
(src/unnamed/part_004:2245-2253). -/
inductive PollEntry (D : Type) where
  | done (orderId : String) (fromStatus toStatus : ShipmentStatus)
      (attempts : Nat) (nextPollAt : Option Nat)
  | failed (orderId : String) (message : String)
deriving DecidableEq, Repr

/-- One due order selected by the reconciliation query. -/
structure DueOrder (D : Type) where
  orderId : String
  shipping : Shipping D
deriving DecidableEq, Repr

/-- External outcomes for one record of a reconciliation batch: the result of
the carrier fetch-and-normalize (error when the adapter call threw or returned
no usable data) and of order.save (some message when it threw). -/
structure PollInput (D : Type) where
  order : DueOrder D
  fetchResult : Except String (ShipmentStatus × List (TrackingEvent D))
  saveError : Option String

/-- Per-record body of pollDueHandler (the try/catch at
src/unnamed/part_004:2129-2254): on a fetch or save failure the persisted
shipping is left as it was and an error entry is recorded; on success the
record write is persisted and a summary entry recorded with the previous and
new status, the advanced attempt counter and the computed next poll time. -/
def pollOne {D : Type} (o : DueOrder D) (now : Nat)
    (fetchResult : Except String (ShipmentStatus × List (TrackingEvent D)))
    (saveError : Option String) : Shipping D × PollEntry D :=
  match fetchResult with
  | .error msg => (o.shipping, .failed o.orderId msg)
  | .ok (st, evs) =>
      match saveError with
      | some msg => (o.shipping, .failed o.orderId msg)
      | none =>
          (pollRecordWrite o.shipping now st evs,
           .done o.orderId o.shipping.shipmentStatus st
             (pollRecordWrite o.shipping now st evs).pollAttempts
             (pollRecordWrite o.shipping now st evs).nextPollAt)

/-- Reconciliation batch loop of pollDueHandler
(src/unnamed/part_004:2123-2255): each due record is processed inside its own
try/catch, independently of the others. -/
def pollDueBatch {D : Type} (xs : List (PollInput D)) (now : Nat) :
    List (Shipping D × PollEntry D) :=
  xs.map (fun x => pollOne x.order now x.fetchResult x.saveError)

/-- Cron guard pollDueGuard (src/unnamed/part_004:2095-2104): a request is
rejected with 403 exactly when a secret is configured (truthy CRON_SECRET) and
neither the x-cron-secret header nor the secret query parameter equals it. -/
def pollDueGuardBlocks (required header query : Option String) : Bool :=
  (match required with | none => false | some r => r != "") &&
    !(header == required) && !(query == required)

/-- Poll-due route: pollDueGuard chained before pollDueHandler
(src/unnamed/part_004:2265-2266). Returns the HTTP status, the persisted
shipping state of each selected order after the call, and the results array;
a blocked request returns 403 untouched state and no results. -/
def pollDueEndpoint {D : Type} (required header query : Option String)
    (xs : List (PollInput D)) (now : Nat) :
    Nat × List (Shipping D) × List (PollEntry D) :=
  if pollDueGuardBlocks required header query then
    (403, xs.map (fun x => x.order.shipping), [])
  else
    (200, (pollDueBatch xs now).map Prod.fst, (pollDueBatch xs now).map Prod.snd)

/-- Error thrown by trackWithUPS on a non-success carrier response
(src/unnamed/part_004:271-281) or by the token helpers (no HTTP status). -/
structure UpsError where
  httpStatus : Option Nat
  message : String
deriving DecidableEq, Repr

/-- Construction of the trackWithUPS error (src/unnamed/part_004:273-280): the
carrier HTTP status plus the first error-envelope message, falling back to the
envelope code, then statusText, then a generic message. -/
def upsTrackError (respStatus : Nat) (envMessage envCode statusText : String) : UpsError :=
  { httpStatus := some respStatus
    message := jsOr envMessage (jsOr envCode (jsOr statusText "UPS tracking failed")) }

/-- JavaScript numeric coalescing e.status || 400: zero and undefined fall back. -/
def jsOrNat (a : Option Nat) (b : Nat) : Nat :=
  match a with
  | some n => if n = 0 then b else n
  | none => b

/-- HTTP reply of the tracking attachment handler: status code, success flag
and message of the JSON body. -/
structure HttpReply where
  status : Nat
  success : Bool
  message : String
deriving DecidableEq, Repr

/-- UPS package node of the tracking payload
(trackResponse.shipment[0].package[0]). -/
structure UpsPackage where
  currentStatusCode : String
  currentStatusDesc : String
  activity : List UpsActivity
deriving DecidableEq, Repr

/-- UPS branch of PATCH /order/:id/tracking (src/unnamed/part_004:1182-1271) as
a function of the fetch outcome: the catch clause replies e.status || 400 with
e.message falling back to a fixed text; a payload without a package node
replies 400; a success normalizes and runs the shipping write. Buyer
notifications are fire-and-forget and the mock path only changes the data
source and success message, so both are omitted; the save is assumed to
succeed (its failure would be caught by the same catch clause, persisting
nothing). -/
def upsAttachHandler (sh : Shipping UpsDate) (now : Nat) (tn : String)
    (fetch : Except UpsError (Option UpsPackage)) : HttpReply × Shipping UpsDate :=
  match fetch with
  | .error e =>
      ({ status := jsOrNat e.httpStatus 400, success := false,
         message := jsOr e.message "UPS validation failed." }, sh)
  | .ok none =>
      ({ status := 400, success := false, message := "UPS returned no package data." }, sh)
  | .ok (some pkg) =>
      ({ status := 200, success := true, message := "Tracking saved and verified with UPS." },
       upsAttachWrite sh now tn (mapUpsStatus pkg.currentStatusCode pkg.currentStatusDesc)
         (pkg.activity.map upsEventOf))

/-- Adapter choice for a tracking request. -/
inductive Adapter where
  | ups
  | fedex
  | aftership (slug : String)
deriving DecidableEq, Repr

/-- UPS tracking-number shape, the regex 1Z[0-9A-Z]x16 tested at
src/unnamed/part_004:1183 and 2133. -/
def upsPattern (tn : String) : Bool :=
  tn.length = 18 && charsLead ['1', 'Z'] tn.toList &&
    (tn.toList.drop 2).all (fun c => c.isDigit || c.isUpper)

/-- Adapter dispatch of PATCH /order/:id/tracking (branch conditions at
src/unnamed/part_004:1183, 1275 and the AfterShip fallback at 1365-1399):
carrier is the optional request carrier and tn the trimmed uppercased tracking
number; the AfterShip slug is the lowercased carrier, or auto when the carrier
is absent or empty. -/
def selectAdapter (carrier : Option String) (tn : String) : Adapter :=
  if lowerStr (carrier.getD "") = "ups" ∨ upsPattern tn = true then .ups
  else if lowerStr (carrier.getD "") = "fedex" then .fedex
  else .aftership (match carrier with
    | some c => if c = "" then "auto" else lowerStr c
    | none => "auto")

/-- Modelled from the claim wording of C6 and spec section 4.1: a selection
policy where an explicitly supplied carrier name always takes precedence, the
UPS shape is inferred only without one, and anything else falls back to the
aggregator. An empty carrier string counts as unsupplied, as JS truthiness
does. -/
def claimedSelectAdapter (carrier : Option String) (tn : String) : Adapter :=
  match carrier with
  | some c =>
      if c ≠ "" then
        if lowerStr c = "ups" then .ups
        else if lowerStr c = "fedex" then .fedex
        else .aftership (lowerStr c)
      else if upsPattern tn = true then .ups else .aftership "auto"
  | none => if upsPattern tn = true then .ups else .aftership "auto"

/-- Amended selection policy for C6, as the code implements it: a 1Z-shaped
tracking number selects the UPS adapter even when a different carrier was
supplied; otherwise an explicit ups or fedex carrier selects its adapter; every
other request goes to the aggregator with the lowercased slug, auto when the
carrier is absent or empty. -/
def amendedSelectAdapter (carrier : Option String) (tn : String) : Adapter :=
  if upsPattern tn = true then .ups
  else match carrier with
    | some c =>
        if lowerStr c = "ups" then .ups
        else if lowerStr c = "fedex" then .fedex
        else .aftership (if c = "" then "auto" else lowerStr c)
    | none => .aftership "auto"

/-- Forgets the two call-time fields of a shipping record: the poll timestamp
and the scheduled next poll. -/
def eraseCallTimes {D : Type} (sh : Shipping D) : Shipping D :=
  { sh with lastPolledAt := none, nextPollAt := none }

/-- Example shipping record: tracking attached earlier with an empty event
list (so verified is still false), in transit, one pending poll. -/
def shEx : Shipping UpsDate :=
  { trackingNumber := some "1Z12345E0291980793"
    carrier := some "UPS"
    shipmentStatus := .in_transit
    shippedAt := some 0
    deliveredAt := none
    aftershipTrackingId := none
    trackingEvents := []
    verified := false
    pollAttempts := 0
    lastPolledAt := none
    nextPollAt := some 0 }

/-- Example mapped carrier event with an unparsable (absent) date. -/
def evEx : TrackingEvent UpsDate :=
  { status := "in transit"
    message := "In Transit"
    datetime := none
    location := "Philadelphia, PA, US" }

/-- Example raw UPS activity whose date field holds no 8-digit date. -/
def badActEx : UpsActivity :=
  { date := "soon"
    time := ""
    statusDescription := "Origin Scan"
    activityScan := ""
    city := "New York"
    stateProvince := "NY"
    country := "US" }

/-- Example batch record: a due in-transit order whose carrier fetch returns
one in-transit event and whose save succeeds. -/
def pollInputEx : PollInput UpsDate :=
  { order := { orderId := "order-1", shipping := shEx }
    fetchResult := .ok (.in_transit, [evEx])
    saveError := none }

/-- Example batch record whose carrier fetch fails with a network error. -/
def pollInputFailEx : PollInput UpsDate :=
  { order := { orderId := "order-2", shipping := shEx }
    fetchResult := .error "connect ECONNREFUSED"
    saveError := none }

/-- Example batch record whose carrier fetch succeeds but whose save throws. -/
def pollInputSaveFailEx : PollInput UpsDate :=
  { order := { orderId := "order-3", shipping := shEx }
    fetchResult := .ok (.in_transit, [evEx])
    saveError := some "save failed" }

/-- Every status value is one of the eight enumeration values. -/
theorem mem_allStatuses (s : ShipmentStatus) : s ∈ allStatuses := by
  cases s <;> simp [allStatuses]

/-- The stored-event validity filter accepts every mapped event: an event
either has no datetime or has one that a carrier date parser produced, and the
parsers never produce an invalid date. -/
theorem keepEvent_true {D : Type} (e : TrackingEvent D) : keepEvent e = true := by
  obtain ⟨s, m, d, l⟩ := e
  cases d <;> rfl

/-- Hence the validity filter is the identity on mapped event lists. -/
theorem filter_keepEvent {D : Type} (l : List (TrackingEvent D)) :
    l.filter keepEvent = l :=
  List.filter_eq_self.mpr (fun a _ => keepEvent_true a)

/-- JS string coalescing with a nonempty fallback is nonempty. -/
theorem jsOr_ne_empty (a b : String) (hb : b ≠ "") : jsOr a b ≠ "" := by
  unfold jsOr
  split
  · exact hb
  · next h => exact h

/-- JS string coalescing keeps a nonempty left operand. -/
theorem jsOr_of_ne_empty (a b : String) (ha : a ≠ "") : jsOr a b = a := if_neg ha

/-- Claim C1: every shipping record written by the tracking attachment
operation (UPS or AfterShip branch) or by a successful reconciliation poll has
nextPollAt null exactly when its shipmentStatus is delivered or its
pollAttempts counter has reached 120. -/
theorem C1_nextPollAt_null_iff_terminal {D : Type} (sh : Shipping D) (now : Nat)
    (tn : String) (status : ShipmentStatus)
    (events newEvents : List (TrackingEvent D))
    (slug : String) (carrierReq : Option String) (trackId : String) :
    ((upsAttachWrite sh now tn status events).nextPollAt = none ↔
      ((upsAttachWrite sh now tn status events).shipmentStatus = .delivered ∨
        120 ≤ (upsAttachWrite sh now tn status events).pollAttempts))
    ∧ ((aftershipAttachWrite sh now tn slug carrierReq trackId status events).nextPollAt = none ↔
      ((aftershipAttachWrite sh now tn slug carrierReq trackId status events).shipmentStatus = .delivered ∨
        120 ≤ (aftershipAttachWrite sh now tn slug carrierReq trackId status events).pollAttempts))
    ∧ ((pollRecordWrite sh now status newEvents).nextPollAt = none ↔
      ((pollRecordWrite sh now status newEvents).shipmentStatus = .delivered ∨
        120 ≤ (pollRecordWrite sh now status newEvents).pollAttempts)) := by
  refine ⟨?_, ?_, ?_⟩
  · by_cases h : status = .delivered <;> simp [upsAttachWrite, h]
  · by_cases h : status = .delivered <;> simp [aftershipAttachWrite, h]
  · by_cases h : status = .delivered
    · simp [pollRecordWrite, h]
    · by_cases h2 : 120 ≤ sh.pollAttempts + 1 <;> simp [pollRecordWrite, h, h2]

/-- Claim C2: computeNextPollAt returns the time exactly h hours after now
where h is the minimum of base(status) + attempts/3 and 24, with base 2 for
out_for_delivery, 6 for in_transit and 12 for every other status; the result
never exceeds 24 hours from now. -/
theorem C2_computeNextPollAt_formula (s : ShipmentStatus) (a now : Nat) :
    computeNextPollAt s a now =
      now + min ((if s = .out_for_delivery then 2 else if s = .in_transit then 6 else 12) + a / 3) 24
        * msPerHour
    ∧ computeNextPollAt s a now ≤ now + 24 * msPerHour := by
  unfold computeNextPollAt pollBaseHours msPerHour
  cases s <;> simp <;> omega

/-- Claim C3: each status normalizer is a total function into the eight-value
status enumeration, and an input in which no recognized keyword occurs maps to
shipped. -/
theorem C3_normalizers_total_default_shipped (s : Option String) (code desc raw : String) :
    mapStatus s ∈ allStatuses
    ∧ mapUpsStatus code desc ∈ allStatuses
    ∧ mapFedexStatus raw ∈ allStatuses
    ∧ (¬ aftershipRecognized s → mapStatus s = .shipped)
    ∧ (¬ upsRecognized code desc → mapUpsStatus code desc = .shipped)
    ∧ (¬ fedexRecognized raw → mapFedexStatus raw = .shipped) := by
  refine ⟨mem_allStatuses _, mem_allStatuses _, mem_allStatuses _, ?_, ?_, ?_⟩
  · intro h
    unfold mapStatus
    split_ifs <;>
      first
        | rfl
        | exact absurd (by unfold aftershipRecognized; tauto) h
  · intro h
    unfold mapUpsStatus
    split_ifs <;>
      first
        | rfl
        | exact absurd (by unfold upsRecognized; tauto) h
  · intro h
    unfold mapFedexStatus
    split_ifs <;>
      first
        | rfl
        | exact absurd (by unfold fedexRecognized; tauto) h

/-- Witness for C3 at concrete unrecognized inputs. -/
theorem C3_witness :
    mapStatus (some "Totally Unknown Tag") = .shipped
    ∧ mapUpsStatus "X" "mystery parcel" = .shipped
    ∧ mapFedexStatus "mystery parcel" = .shipped := by
  have h := C3_normalizers_total_default_shipped
    (some "Totally Unknown Tag") "X" "mystery parcel" "mystery parcel"
  exact ⟨h.2.2.2.1 (by decide), h.2.2.2.2.1 (by decide), h.2.2.2.2.2 (by decide)⟩

/-- Claim C4: records of a reconciliation batch are processed independently;
a record whose fetch-and-normalize fails, and likewise a record whose save
fails, yields an error entry carrying its order id while every other record is
still processed, the batch length equals the number of due records, and the
failed record keeps its persisted shipping state, in particular its nextPollAt
and pollAttempts. -/
theorem C4_batch_isolation {D : Type} (xs ys : List (PollInput D)) (now : Nat)
    (o : DueOrder D) (msg : String) (se : Option String)
    (st : ShipmentStatus) (evs : List (TrackingEvent D)) (smsg : String) :
    pollDueBatch (xs ++ { order := o, fetchResult := .error msg, saveError := se } :: ys) now
      = pollDueBatch xs now
        ++ (o.shipping, PollEntry.failed o.orderId msg) :: pollDueBatch ys now
    ∧ (pollDueBatch (xs ++ { order := o, fetchResult := .error msg, saveError := se } :: ys) now).length
      = xs.length + 1 + ys.length
    ∧ (pollOne o now (.error msg) se).1.nextPollAt = o.shipping.nextPollAt
    ∧ (pollOne o now (.error msg) se).1.pollAttempts = o.shipping.pollAttempts
    ∧ (pollOne o now (.error msg) se).2 = PollEntry.failed o.orderId msg
    ∧ pollDueBatch
        (xs ++ { order := o, fetchResult := .ok (st, evs), saveError := some smsg } :: ys) now
      = pollDueBatch xs now
        ++ (o.shipping, PollEntry.failed o.orderId smsg) :: pollDueBatch ys now
    ∧ (pollOne o now (.ok (st, evs)) (some smsg)).1.nextPollAt = o.shipping.nextPollAt
    ∧ (pollOne o now (.ok (st, evs)) (some smsg)).1.pollAttempts = o.shipping.pollAttempts
    ∧ (pollOne o now (.ok (st, evs)) (some smsg)).2 = PollEntry.failed o.orderId smsg := by
  refine ⟨?_, ?_, rfl, rfl, rfl, ?_, rfl, rfl, rfl⟩
  · simp [pollDueBatch, pollOne]
  · simp [pollDueBatch]
    omega
  · simp [pollDueBatch, pollOne]

/-- Witness for C4: a concrete two-record batch whose first record fails to
fetch, and a concrete batch whose record fetches but fails to save. -/
theorem C4_witness :
    (pollDueBatch [pollInputFailEx, pollInputEx] 0).length = 2
    ∧ (pollDueBatch [pollInputFailEx, pollInputEx] 0).map Prod.snd
      = [PollEntry.failed "order-2" "connect ECONNREFUSED",
         PollEntry.done "order-1" .in_transit .in_transit 1 (some 21600000)]
    ∧ ((pollDueBatch [pollInputFailEx, pollInputEx] 0).map Prod.fst).head? = some shEx
    ∧ (pollDueBatch [pollInputSaveFailEx] 0).map Prod.snd
      = [PollEntry.failed "order-3" "save failed"]
    ∧ (pollDueBatch [pollInputSaveFailEx] 0).map Prod.fst = [shEx] := by
  have h := C4_batch_isolation (D := UpsDate) [] [pollInputEx] 0
    pollInputFailEx.order "connect ECONNREFUSED" none .in_transit [evEx] "save failed"
  have h2 := C4_batch_isolation (D := UpsDate) [] [] 0
    pollInputSaveFailEx.order "unused" none .in_transit [evEx] "save failed"
  refine ⟨?_, ?_, ?_, ?_, ?_⟩
  case refine_4 =>
    rw [show ([pollInputSaveFailEx] : List (PollInput UpsDate))
        = [] ++ { order := pollInputSaveFailEx.order,
                  fetchResult := .ok (.in_transit, [evEx]),
                  saveError := some "save failed" } :: [] from rfl, h2.2.2.2.2.2.1]
    rfl
  case refine_5 =>
    rw [show ([pollInputSaveFailEx] : List (PollInput UpsDate))
        = [] ++ { order := pollInputSaveFailEx.order,
                  fetchResult := .ok (.in_transit, [evEx]),
                  saveError := some "save failed" } :: [] from rfl, h2.2.2.2.2.2.1]
    rfl
  · rw [show ([pollInputFailEx, pollInputEx] : List (PollInput UpsDate))
        = [] ++ { order := pollInputFailEx.order,
                  fetchResult := .error "connect ECONNREFUSED",
                  saveError := none } :: [pollInputEx] from rfl, h.2.1]
    decide
  · rw [show ([pollInputFailEx, pollInputEx] : List (PollInput UpsDate))
        = [] ++ { order := pollInputFailEx.order,
                  fetchResult := .error "connect ECONNREFUSED",
                  saveError := none } :: [pollInputEx] from rfl, h.1]
    rfl
  · rw [show ([pollInputFailEx, pollInputEx] : List (PollInput UpsDate))
        = [] ++ { order := pollInputFailEx.order,
                  fetchResult := .error "connect ECONNREFUSED",
                  saveError := none } :: [pollInputEx] from rfl, h.1]
    rfl

/-- Claim C5: when the UPS adapter fails during tracking attachment, the
handler replies with the carrier HTTP status when the thrown error carries one
(otherwise 400) and with the message extracted from the carrier error
envelope, and the persisted order shipping state is unchanged; a payload with
no usable package data likewise replies 400 without mutation. -/
theorem C5_adapter_failure_propagated (sh : Shipping UpsDate) (now : Nat) (tn : String)
    (e : UpsError) (respStatus : Nat) (envMessage envCode statusText : String) :
    (upsAttachHandler sh now tn (.error e)).2 = sh
    ∧ (upsAttachHandler sh now tn (.ok none)).2 = sh
    ∧ (upsAttachHandler sh now tn (.ok none)).1
      = { status := 400, success := false, message := "UPS returned no package data." }
    ∧ (upsAttachHandler sh now tn (.error { httpStatus := none, message := e.message })).1.status = 400
    ∧ (400 ≤ respStatus →
        (upsAttachHandler sh now tn
            (.error (upsTrackError respStatus envMessage envCode statusText))).1
          = { status := respStatus, success := false,
              message := jsOr envMessage (jsOr envCode (jsOr statusText "UPS tracking failed")) }) := by
  refine ⟨rfl, rfl, rfl, rfl, ?_⟩
  intro hs
  have hM : jsOr envMessage (jsOr envCode (jsOr statusText "UPS tracking failed")) ≠ "" :=
    jsOr_ne_empty _ _ (jsOr_ne_empty _ _ (jsOr_ne_empty _ _ (by decide)))
  have hz : respStatus ≠ 0 := by omega
  unfold upsAttachHandler upsTrackError
  simp [jsOrNat, hz, jsOr_of_ne_empty _ _ hM]

/-- Witness for C5 at a concrete 404 carrier rejection. -/
theorem C5_witness :
    (upsAttachHandler shEx 0 "1Z999" (.error (upsTrackError 404 "Tracking information not found" "" ""))).1
      = { status := 404, success := false, message := "Tracking information not found" }
    ∧ (upsAttachHandler shEx 0 "1Z999" (.error (upsTrackError 404 "Tracking information not found" "" ""))).2
      = shEx := by
  have h := C5_adapter_failure_propagated shEx 0 "1Z999"
    (upsTrackError 404 "Tracking information not found" "" "") 404
    "Tracking information not found" "" ""
  exact ⟨h.2.2.2.2 (by omega), h.1⟩

/-- Claim C6 counterexample: an explicitly supplied fedex carrier does not
take precedence over a 1Z-shaped tracking number; the code dispatches to the
UPS adapter while the claimed policy would dispatch to FedEx. -/
theorem C6_counterexample :
    selectAdapter (some "fedex") "1Z12345E0291980793" = Adapter.ups
    ∧ claimedSelectAdapter (some "fedex") "1Z12345E0291980793" = Adapter.fedex
    ∧ selectAdapter (some "fedex") "1Z12345E0291980793"
      ≠ claimedSelectAdapter (some "fedex") "1Z12345E0291980793" := by
  decide

/-- Claim C6 as amended: a 1Z-shaped tracking number selects the UPS adapter
regardless of the supplied carrier; otherwise an explicit ups or fedex carrier
selects its adapter; every other request uses the aggregator with the
lowercased carrier slug, or auto when the carrier is absent or empty. -/
theorem C6_amended_selection (carrier : Option String) (tn : String) :
    selectAdapter carrier tn = amendedSelectAdapter carrier tn := by
  have h1 : ¬ lowerStr "" = "ups" := by decide
  have h2 : ¬ lowerStr "" = "fedex" := by decide
  cases carrier with
  | none =>
      unfold selectAdapter amendedSelectAdapter
      by_cases h : upsPattern tn = true <;> simp [h, h1, h2]
  | some c =>
      unfold selectAdapter amendedSelectAdapter
      by_cases h : upsPattern tn = true
      · simp [h]
      · simp [h]

/-- Claim C7: for every carrier payload, a raw event whose date cannot be
parsed is still included in the stored trackingEvents list as an event without
a datetime field; no event is dropped, so the stored list has exactly one
event per raw event. -/
theorem C7_unparsable_dates_kept {D : Type} (parse : String → Option D)
    (acts : List UpsActivity) (latestDesc : String) (scans : List FedexScan)
    (cps : List Checkpoint) :
    upsStoredEvents acts = acts.map upsEventOf
    ∧ (upsStoredEvents acts).length = acts.length
    ∧ (∀ a ∈ acts, parseUpsDate a.date a.time = none →
        (upsEventOf a).datetime = none ∧ upsEventOf a ∈ upsStoredEvents acts)
    ∧ fedexStoredEvents parse latestDesc scans = scans.map (fedexEventOf parse latestDesc)
    ∧ (fedexStoredEvents parse latestDesc scans).length = scans.length
    ∧ (∀ sc ∈ scans, parseFedexDate parse (jsOr sc.date (jsOr sc.dateTime sc.eventDateTime)) = none →
        (fedexEventOf parse latestDesc sc).datetime = none
        ∧ fedexEventOf parse latestDesc sc ∈ fedexStoredEvents parse latestDesc scans)
    ∧ aftershipStoredEvents parse cps = cps.map (aftershipEventOf parse)
    ∧ (aftershipStoredEvents parse cps).length = cps.length
    ∧ (∀ c ∈ cps, (c.checkpointTime = "" ∨ parse c.checkpointTime = none) →
        (aftershipEventOf parse c).datetime = none
        ∧ aftershipEventOf parse c ∈ aftershipStoredEvents parse cps) := by
  have hu : upsStoredEvents acts = acts.map upsEventOf := filter_keepEvent _
  have hf : fedexStoredEvents parse latestDesc scans = scans.map (fedexEventOf parse latestDesc) :=
    filter_keepEvent _
  refine ⟨hu, ?_, ?_, hf, ?_, ?_, rfl, ?_, ?_⟩
  · rw [hu, List.length_map]
  · intro a ha hnone
    refine ⟨?_, ?_⟩
    · simp [upsEventOf, hnone]
    · rw [hu]
      exact List.mem_map_of_mem _ ha
  · rw [hf, List.length_map]
  · intro sc hsc hnone
    refine ⟨?_, ?_⟩
    · simp [fedexEventOf, hnone]
    · rw [hf]
      exact List.mem_map_of_mem _ hsc
  · exact (List.length_map _ _).symm ▸ rfl
  · intro c hc hnone
    refine ⟨?_, List.mem_map_of_mem _ hc⟩
    rcases hnone with h | h
    · simp [aftershipEventOf, h]
    · by_cases he : c.checkpointTime = "" <;> simp [aftershipEventOf, he, h]

/-- Witness for C7: a raw UPS activity with an unparsable date is stored with
no datetime and not dropped. -/
theorem C7_witness :
    (upsStoredEvents [badActEx]).length = 1
    ∧ (upsEventOf badActEx).datetime = none
    ∧ upsEventOf badActEx ∈ upsStoredEvents [badActEx] := by
  have h := C7_unparsable_dates_kept (D := UpsDate) (fun _ => none) [badActEx] "" [] []
  have hbad : parseUpsDate badActEx.date badActEx.time = none := by decide
  have h3 := h.2.2.1 badActEx (by simp) hbad
  exact ⟨h.2.1, h3.1, h3.2⟩

/-- Claim C8: attaching tracking twice in succession with the same tracking
number and an identical carrier response yields identical persisted shipping
state after each call, except for the call-time fields lastPolledAt and
nextPollAt; proved for the UPS branch and the AfterShip branch. -/
theorem C8_attach_idempotent {D : Type} (sh : Shipping D) (t1 t2 : Nat) (tn : String)
    (status : ShipmentStatus) (events : List (TrackingEvent D))
    (slug : String) (carrierReq : Option String) (trackId : String) :
    eraseCallTimes (upsAttachWrite (upsAttachWrite sh t1 tn status events) t2 tn status events)
      = eraseCallTimes (upsAttachWrite sh t1 tn status events)
    ∧ eraseCallTimes
        (aftershipAttachWrite (aftershipAttachWrite sh t1 tn slug carrierReq trackId status events)
          t2 tn slug carrierReq trackId status events)
      = eraseCallTimes (aftershipAttachWrite sh t1 tn slug carrierReq trackId status events) := by
  constructor
  · unfold upsAttachWrite eraseCallTimes
    by_cases hd : status = .delivered <;> by_cases hn : sh.deliveredAt = none <;>
      simp [hd, hn, filter_keepEvent, Bool.or_assoc, Bool.or_self]
  · unfold aftershipAttachWrite eraseCallTimes
    by_cases hd : status = .delivered <;> by_cases hn : sh.deliveredAt = none <;>
      simp [hd, hn, Bool.or_assoc, Bool.or_self]

/-- Claim C9 counterexample: when no cron secret is configured, a request with
no secret at all is not rejected; the endpoint replies 200 and processes the
batch, advancing the record attempt counter. -/
theorem C9_counterexample :
    (pollDueEndpoint (D := UpsDate) none none none [pollInputEx] 0).1 = 200
    ∧ ((pollDueEndpoint (D := UpsDate) none none none [pollInputEx] 0).2.1.map
        Shipping.pollAttempts) = [1]
    ∧ pollInputEx.order.shipping.pollAttempts = 0 := by
  refine ⟨rfl, rfl, rfl⟩

/-- Claim C9 as amended: provided a nonempty cron secret is configured, every
request to the poll-due route whose header and query secrets both differ from
it receives 403, and no record is processed or mutated. -/
theorem C9_guard_with_configured_secret {D : Type} (r : String) (header query : Option String)
    (xs : List (PollInput D)) (now : Nat)
    (hr : r ≠ "") (hh : header ≠ some r) (hq : query ≠ some r) :
    pollDueEndpoint (some r) header query xs now
      = (403, xs.map (fun x => x.order.shipping), []) := by
  unfold pollDueEndpoint pollDueGuardBlocks
  have h1 : (r != "") = true := by simpa using hr
  have h2 : (header == some r) = false := by simpa using hh
  have h3 : (query == some r) = false := by simpa using hq
  simp [h1, h2, h3]

/-- Witness for the amended C9 at a concrete mismatched request. -/
theorem C9_witness :
    pollDueEndpoint (D := UpsDate) (some "cron-key") (some "wrong") none [pollInputEx] 0
      = (403, [shEx], []) := by
  have h := C9_guard_with_configured_secret (D := UpsDate) "cron-key" (some "wrong") none
    [pollInputEx] 0 (by decide) (by decide) (by decide)
  exact h

/-- Claim C10 evaluated at its failing input: a reconciliation poll that
stores a non-empty trackingEvents list on a record whose verified flag is
false leaves verified false, although the schema documents the flag as
becoming true on the first carrier scan (src/models/orders.js:150). -/
theorem C10_poll_leaves_verified_false :
    (pollRecordWrite shEx 1000 .in_transit [evEx]).trackingEvents = [evEx]
    ∧ shEx.verified = false
    ∧ (pollRecordWrite shEx 1000 .in_transit [evEx]).verified = false := by
  exact ⟨rfl, rfl, rfl⟩

end Shipment
